import Mathlib

/-!
Verification of the social-graph CRUD layer (`app/crud/neo4j_crud.py`).

A shallow embedding of the Cypher statements issued by the CRUD classes
(`FriendshipsCRUD`, `BlockingCRUD`, `MessagingCRUD`, `PartyCRUD`, `ClanCRUD`,
`FollowCRUD`).  The graph is a record of node lists and edge lists (edge lists
are multisets: Cypher `CREATE` never deduplicates).  Each CRUD method becomes a
pure function on this state; `datetime()` is modelled by an explicit tick
parameter `t : Nat`.  A Cypher `MATCH` of a node pattern `(x:L {id})` succeeds
exactly when a node with that id is present; node ids are assumed unique (the
data model declares `player_id`, `conversation_id`, ... unique), so each node
pattern binds at most one row.  Clauses after a `MATCH`/`OPTIONAL MATCH` run
once per matched row, which is what makes `block_player` and `join_party`
create one relationship per matched row.
-/

/-- A `Player` node (`player_id`, `username`, `status`). -/
structure Player where
  playerId : String
  username : String
  status : String
deriving Repr, DecidableEq

/-- A `SENT_REQUEST` relationship (`sent_at`, `message`). -/
structure SentRequestEdge where
  fromId : String
  toId : String
  message : String
  sentAt : Nat
deriving Repr, DecidableEq

/-- A directed `FRIENDS_WITH` relationship (`since`, optional `nickname`). -/
structure FriendEdge where
  fromId : String
  toId : String
  since : Nat
  nickname : Option String
deriving Repr, DecidableEq

/-- A `BLOCKED` relationship (`since`, optional `reason`). -/
structure BlockEdge where
  blockerId : String
  blockedId : String
  since : Nat
  reason : Option String
deriving Repr, DecidableEq

/-- A `FOLLOWS` relationship (`since`). -/
structure FollowEdge where
  followerId : String
  followingId : String
  since : Nat
deriving Repr, DecidableEq

/-- A `Conversation` node. -/
structure Conversation where
  conversationId : String
  convType : String
  name : Option String
  createdAt : Nat
  lastMessageAt : Option Nat
deriving Repr, DecidableEq

/-- A `MEMBER_OF` relationship (`joined_at`, `role`, `muted`). -/
structure MemberEdge where
  playerId : String
  conversationId : String
  joinedAt : Nat
  role : String
  muted : Bool
deriving Repr, DecidableEq

/-- A `Message` node. -/
structure Message where
  messageId : String
  content : String
  timestamp : Nat
  edited : Bool
  editedAt : Option Nat
deriving Repr, DecidableEq

/-- A `SENT` relationship (Player to Message). -/
structure SentEdge where
  senderId : String
  messageId : String
deriving Repr, DecidableEq

/-- A `CONTAINS` relationship (Conversation to Message). -/
structure ContainsEdge where
  conversationId : String
  messageId : String
deriving Repr, DecidableEq

/-- A `Party` node. -/
structure Party where
  partyId : String
  gameId : String
  maxSize : Nat
  isPublic : Bool
  createdAt : Nat
deriving Repr, DecidableEq

/-- An `IN_PARTY` relationship (`joined_at`, `role`). -/
structure InPartyEdge where
  playerId : String
  partyId : String
  joinedAt : Nat
  role : String
deriving Repr, DecidableEq

/-- An `INVITED_TO` relationship (`invited_by`, `invited_at`). -/
structure InviteEdge where
  playerId : String
  partyId : String
  invitedBy : String
  invitedAt : Nat
deriving Repr, DecidableEq

/-- A `Clan` node. -/
structure Clan where
  clanId : String
  name : String
  tag : String
  description : Option String
  createdAt : Nat
deriving Repr, DecidableEq

/-- A `BELONGS_TO` relationship (`joined_at`, `role`, `rank`). -/
structure BelongsToEdge where
  playerId : String
  clanId : String
  joinedAt : Nat
  role : String
  rank : Nat
deriving Repr, DecidableEq

/-- The whole property graph: node lists plus edge multisets. -/
structure GraphState where
  players : List Player
  sentRequests : List SentRequestEdge
  friendships : List FriendEdge
  blocks : List BlockEdge
  follows : List FollowEdge
  conversations : List Conversation
  memberships : List MemberEdge
  messages : List Message
  sentEdges : List SentEdge
  containsEdges : List ContainsEdge
  parties : List Party
  inParty : List InPartyEdge
  invites : List InviteEdge
  clans : List Clan
  belongsTo : List BelongsToEdge
deriving Repr, DecidableEq

/-- The `MATCH (p:Player {player_id: pid})` succeeds. -/
def hasPlayerNode (s : GraphState) (pid : String) : Bool :=
  s.players.any (fun q => q.playerId == pid)

/-- The `MATCH (c:Conversation {conversation_id: cid})` succeeds. -/
def hasConvNode (s : GraphState) (cid : String) : Bool :=
  s.conversations.any (fun c => c.conversationId == cid)

/-- The `MATCH (party:Party {party_id: pid})` succeeds. -/
def hasPartyNode (s : GraphState) (pid : String) : Bool :=
  s.parties.any (fun p => p.partyId == pid)

/-- The `MATCH (clan:Clan {clan_id: cid})` succeeds. -/
def hasClanNode (s : GraphState) (cid : String) : Bool :=
  s.clans.any (fun c => c.clanId == cid)

/-- The `MATCH (m:Message {message_id: mid})` succeeds. -/
def hasMessageNode (s : GraphState) (mid : String) : Bool :=
  s.messages.any (fun m => m.messageId == mid)

/-- Resolve the (unique) `Player` node with the given id. -/
def lookupPlayer (s : GraphState) (pid : String) : Option Player :=
  s.players.find? (fun q => q.playerId == pid)

/-- The pattern `(a)-[:FRIENDS_WITH]->(b)` between two bound nodes holds. -/
def friendEdgeB (s : GraphState) (a b : String) : Bool :=
  s.friendships.any (fun e => e.fromId == a && e.toId == b)

/-- The pattern `(a)-[:BLOCKED]->(b)` between two bound nodes holds. -/
def blockEdgeB (s : GraphState) (a b : String) : Bool :=
  s.blocks.any (fun e => e.blockerId == a && e.blockedId == b)

/-- Number of `SENT_REQUEST` edges from `a` to `b`. -/
def requestCount (s : GraphState) (a b : String) : Nat :=
  (s.sentRequests.filter (fun e => e.fromId == a && e.toId == b)).length

/-- Number of `BLOCKED` edges from `a` to `b`. -/
def blockCount (s : GraphState) (a b : String) : Nat :=
  (s.blocks.filter (fun e => e.blockerId == a && e.blockedId == b)).length

/-- Number of `FOLLOWS` edges from `a` to `b`. -/
def followCount (s : GraphState) (a b : String) : Nat :=
  (s.follows.filter (fun e => e.followerId == a && e.followingId == b)).length

/-! ## FriendshipsCRUD -/

/-- The `FriendshipsCRUD.send_friend_request`: `MATCH` both players, then
`CREATE (from)-[:SENT_REQUEST {sent_at, message}]->(to)` with no
validation of any kind. -/
def send_friend_request (s : GraphState) (fromId toId msg : String) (t : Nat) :
    GraphState :=
  if hasPlayerNode s fromId && hasPlayerNode s toId then
    { s with sentRequests := s.sentRequests ++ [⟨fromId, toId, msg, t⟩] }
  else s

/-- Row predicate of the `MATCH` in `accept_friend_request`:
`(from:Player {from_id})-[r:SENT_REQUEST]->(to:Player {to_id})`. -/
def acceptRowMatch (s : GraphState) (a b : String) (e : SentRequestEdge) : Bool :=
  e.fromId == a && e.toId == b && hasPlayerNode s a && hasPlayerNode s b

/-- The `FriendshipsCRUD.accept_friend_request`: per matched `SENT_REQUEST` row,
`DELETE r` and `CREATE` the two directed `FRIENDS_WITH` edges. -/
def accept_friend_request (s : GraphState) (a b : String) (t : Nat) : GraphState :=
  let matched := s.sentRequests.filter (acceptRowMatch s a b)
  { s with
    sentRequests := s.sentRequests.filter (fun e => !(acceptRowMatch s a b e)),
    friendships := s.friendships ++
      matched.flatMap (fun _ => [⟨a, b, t, none⟩, ⟨b, a, t, none⟩]) }

/-- A row of `FriendshipsCRUD.get_friends`. -/
structure FriendRec where
  playerId : String
  username : String
  status : String
  friendsSince : Nat
  nickname : Option String
deriving Repr, DecidableEq

/-- The `FriendshipsCRUD.get_friends`:
`MATCH (p:Player {pid})-[f:FRIENDS_WITH]->(friend:Player)`. -/
def get_friends (s : GraphState) (pid : String) : List FriendRec :=
  if hasPlayerNode s pid then
    s.friendships.filterMap (fun e =>
      if e.fromId == pid then
        (lookupPlayer s e.toId).map (fun q =>
          ⟨q.playerId, q.username, q.status, e.since, e.nickname⟩)
      else none)
  else []

/-- The ids listed by `get_friends`. -/
def friendIds (s : GraphState) (pid : String) : List String :=
  (get_friends s pid).map (fun r => r.playerId)

/-! ## BlockingCRUD -/

/-- Row predicate of `OPTIONAL MATCH (blocker)-[f:FRIENDS_WITH]-(blocked)`:
the relationship pattern is undirected, so both orientations match. -/
def blockRowMatch (a b : String) (e : FriendEdge) : Bool :=
  (e.fromId == a && e.toId == b) || (e.fromId == b && e.toId == a)

/-- The `BlockingCRUD.block_player`: `MATCH` both players,
`OPTIONAL MATCH (blocker)-[f:FRIENDS_WITH]-(blocked) DELETE f`, then
`CREATE (blocker)-[:BLOCKED {since, reason}]->(blocked)`.  The `CREATE`
runs once per row: one row when no friendship edge matched (`f = null`),
otherwise one row per matched friendship edge. -/
def block_player (s : GraphState) (blocker blocked : String)
    (reason : Option String) (t : Nat) : GraphState :=
  if hasPlayerNode s blocker && hasPlayerNode s blocked then
    let fs := s.friendships.filter (blockRowMatch blocker blocked)
    let rows := max 1 fs.length
    { s with
      friendships := s.friendships.filter (fun e => !(blockRowMatch blocker blocked e)),
      blocks := s.blocks ++ List.replicate rows ⟨blocker, blocked, t, reason⟩ }
  else s

/-- A row of `BlockingCRUD.get_blocked_players`. -/
structure BlockedRec where
  blockedPlayerId : String
  blockedUsername : String
  blockedSince : Nat
  reason : Option String
deriving Repr, DecidableEq

/-- The `BlockingCRUD.get_blocked_players`:
`MATCH (p:Player {pid})-[b:BLOCKED]->(blocked:Player)`. -/
def get_blocked_players (s : GraphState) (pid : String) : List BlockedRec :=
  if hasPlayerNode s pid then
    s.blocks.filterMap (fun e =>
      if e.blockerId == pid then
        (lookupPlayer s e.blockedId).map (fun q =>
          ⟨q.playerId, q.username, e.since, e.reason⟩)
      else none)
  else []

/-! ## Friend suggestions -/

/-- One occurrence (suggestion id) per row matched by the pattern
`(p {pid})-[:FRIENDS_WITH]->(friend:Player)-[:FRIENDS_WITH]->(suggestion:Player)`
filtered by the `WHERE` clause of `get_friend_suggestions`:
no `(p)-[:FRIENDS_WITH]->(suggestion)`, no `(p)-[:BLOCKED]->(suggestion)`,
and `suggestion.player_id <> pid`. -/
def suggestionRows (s : GraphState) (pid : String) : List String :=
  if hasPlayerNode s pid then
    (s.friendships.filter (fun e1 => e1.fromId == pid && hasPlayerNode s e1.toId)).flatMap
      (fun e1 =>
        (s.friendships.filter (fun e2 =>
            e2.fromId == e1.toId && hasPlayerNode s e2.toId &&
            !(friendEdgeB s pid e2.toId) && !(blockEdgeB s pid e2.toId) &&
            !(e2.toId == pid))).map (fun e2 => e2.toId))
  else []

/-- A row of `FriendshipsCRUD.get_friend_suggestions` (`mutual_friends` is
the Cypher `count(friend)` aggregate for that suggestion). -/
structure SuggestionRec where
  playerId : String
  username : String
  status : String
  mutualFriends : Nat
deriving Repr, DecidableEq

/-- The order used by `ORDER BY mutual_friends DESC`. -/
def sugLE (a b : SuggestionRec) : Prop :=
  b.mutualFriends ≤ a.mutualFriends

instance : DecidableRel sugLE := fun a b =>
  inferInstanceAs (Decidable (b.mutualFriends ≤ a.mutualFriends))

instance : IsTotal SuggestionRec sugLE :=
  ⟨fun a b => Nat.le_total b.mutualFriends a.mutualFriends⟩

instance : IsTrans SuggestionRec sugLE :=
  ⟨fun _ _ _ hab hbc => Nat.le_trans hbc hab⟩

/-- The `FriendshipsCRUD.get_friend_suggestions`: group the matched rows by
suggestion, count the rows per group (`count(friend)`), sort the groups by
that count descending and truncate to `limit`. -/
def get_friend_suggestions (s : GraphState) (pid : String) (limit : Nat) :
    List SuggestionRec :=
  let rows := suggestionRows s pid
  let recs := rows.dedup.filterMap (fun c =>
    (lookupPlayer s c).map (fun q =>
      ⟨q.playerId, q.username, q.status, rows.count c⟩))
  (List.insertionSort sugLE recs).take limit

/-! ## MessagingCRUD -/

/-- The `MessagingCRUD.send_message`: `MATCH` the conversation and the sender
(no membership check of any kind), `CREATE` the `Message` node, the `SENT`
edge and the `CONTAINS` edge, and `SET c.last_message_at = datetime()`,
all in one statement. -/
def send_message (s : GraphState) (convId senderId msgId content : String)
    (t : Nat) : GraphState :=
  if hasConvNode s convId && hasPlayerNode s senderId then
    { s with
      messages := s.messages ++ [⟨msgId, content, t, false, none⟩],
      sentEdges := s.sentEdges ++ [⟨senderId, msgId⟩],
      containsEdges := s.containsEdges ++ [⟨convId, msgId⟩],
      conversations := s.conversations.map (fun c =>
        if c.conversationId == convId then { c with lastMessageAt := some t }
        else c) }
  else s

/-- The `MessagingCRUD.edit_message`: `MATCH (m:Message {msg_id})`,
`MATCH (sender:Player)-[:SENT]->(m)`, `MATCH (c:Conversation)-[:CONTAINS]->(m)`,
then `SET m.content, m.edited = true, m.edited_at = datetime()`.  The `SET`
runs only when all three patterns match. -/
def edit_message (s : GraphState) (msgId newContent : String) (t : Nat) :
    GraphState :=
  if hasMessageNode s msgId &&
      s.sentEdges.any (fun e => e.messageId == msgId && hasPlayerNode s e.senderId) &&
      s.containsEdges.any (fun e => e.messageId == msgId && hasConvNode s e.conversationId) then
    { s with
      messages := s.messages.map (fun m =>
        if m.messageId == msgId then
          { m with content := newContent, edited := true, editedAt := some t }
        else m) }
  else s

/-! ## PartyCRUD -/

/-- Row predicate of `OPTIONAL MATCH (player)-[i:INVITED_TO]->(party)`. -/
def inviteRowMatch (pid pa : String) (i : InviteEdge) : Bool :=
  i.playerId == pid && i.partyId == pa

/-- The `PartyCRUD.join_party`: `MATCH` player and party (no check that the
player is party-free), `OPTIONAL MATCH` the invite rows, `DELETE i`,
`CREATE (player)-[:IN_PARTY {joined_at, role: member}]->(party)` once per
row (one row when no invite matched, else one per invite). -/
def join_party (s : GraphState) (partyId playerId : String) (t : Nat) :
    GraphState :=
  if hasPlayerNode s playerId && hasPartyNode s partyId then
    let invs := s.invites.filter (inviteRowMatch playerId partyId)
    let rows := max 1 invs.length
    { s with
      invites := s.invites.filter (fun i => !(inviteRowMatch playerId partyId i)),
      inParty := s.inParty ++ List.replicate rows ⟨playerId, partyId, t, "member"⟩ }
  else s

/-- Number of `IN_PARTY` edges a player holds (over all parties). -/
def inPartyCountOf (s : GraphState) (pid : String) : Nat :=
  (s.inParty.filter (fun e => e.playerId == pid)).length

/-! ## ClanCRUD -/

/-- The `count(m)` of the first statement of `join_clan`:
`OPTIONAL MATCH (m:Player)-[:BELONGS_TO]->(clan)` counts one row per
`BELONGS_TO` edge into the clan whose source player node exists. -/
def clanMemberCount (s : GraphState) (clanId : String) : Nat :=
  (s.belongsTo.filter (fun e => e.clanId == clanId && hasPlayerNode s e.playerId)).length

/-- The `ClanCRUD.join_clan`: first statement reads the member count and sets
`rank = member_count + 1`; second statement `MATCH`es player and clan (no
check that the player is clan-free) and `CREATE`s the `BELONGS_TO` edge
with that rank. -/
def join_clan (s : GraphState) (clanId playerId : String) (t : Nat) :
    GraphState :=
  if hasClanNode s clanId then
    let rank := clanMemberCount s clanId + 1
    if hasPlayerNode s playerId then
      { s with belongsTo := s.belongsTo ++ [⟨playerId, clanId, t, "member", rank⟩] }
    else s
  else s

/-- The `ClanCRUD.leave_clan`:
`MATCH (p:Player {pid})-[bt:BELONGS_TO]->(clan:Clan {cid}) DELETE bt`. -/
def leave_clan (s : GraphState) (clanId playerId : String) : GraphState :=
  { s with
    belongsTo := s.belongsTo.filter (fun e =>
      !(e.playerId == playerId && e.clanId == clanId &&
        hasPlayerNode s playerId && hasClanNode s clanId)) }

/-- Number of `BELONGS_TO` edges a player holds (over all clans). -/
def belongsCountOf (s : GraphState) (pid : String) : Nat :=
  (s.belongsTo.filter (fun e => e.playerId == pid)).length

/-! ## FollowCRUD -/

/-- The `FollowCRUD.follow_player`: `MATCH` both players, then unconditionally
`CREATE (follower)-[:FOLLOWS {since}]->(following)` (no deduplication). -/
def follow_player (s : GraphState) (followerId followingId : String) (t : Nat) :
    GraphState :=
  if hasPlayerNode s followerId && hasPlayerNode s followingId then
    { s with follows := s.follows ++ [⟨followerId, followingId, t⟩] }
  else s

/-- A row of `FollowCRUD.get_following`. -/
structure FollowRec where
  playerId : String
  username : String
  status : String
  followingSince : Nat
deriving Repr, DecidableEq

/-- The `FollowCRUD.get_following`:
`MATCH (p:Player {pid})-[f:FOLLOWS]->(following:Player)`. -/
def get_following (s : GraphState) (pid : String) : List FollowRec :=
  if hasPlayerNode s pid then
    s.follows.filterMap (fun e =>
      if e.followerId == pid then
        (lookupPlayer s e.followingId).map (fun q =>
          ⟨q.playerId, q.username, q.status, e.since⟩)
      else none)
  else []

/-- The `FollowCRUD.unfollow_player`:
`MATCH (follower {a})-[f:FOLLOWS]->(following {b}) DELETE f` (all rows). -/
def unfollow_player (s : GraphState) (a b : String) : GraphState :=
  { s with
    follows := s.follows.filter (fun e =>
      !(e.followerId == a && e.followingId == b &&
        hasPlayerNode s a && hasPlayerNode s b)) }

/-! ## Concrete fixtures -/

/-- The empty graph. -/
def graph0 : GraphState := ⟨[], [], [], [], [], [], [], [], [], [], [], [], [], [], []⟩

/-- Sample player nodes. -/
def pAlice : Player := ⟨"A", "alice", "online"⟩

def pBob : Player := ⟨"B", "bob", "online"⟩

def pFred : Player := ⟨"F", "fred", "online"⟩

/-! ## Helper lemmas -/

theorem lookupPlayer_playerId {s : GraphState} {pid : String} {q : Player}
    (h : lookupPlayer s pid = some q) : q.playerId = pid := by
  have hp := List.find?_some h
  simpa using hp

theorem lookupPlayer_mem {s : GraphState} {pid : String} {q : Player}
    (h : lookupPlayer s pid = some q) : q ∈ s.players :=
  List.mem_of_find?_eq_some h

theorem lookupPlayer_isSome_iff {s : GraphState} {pid : String} :
    (lookupPlayer s pid).isSome = true ↔ hasPlayerNode s pid = true := by
  unfold lookupPlayer hasPlayerNode
  rw [List.find?_isSome, List.any_eq_true]

theorem hasPlayerNode_congr {s₁ s₂ : GraphState} (h : s₁.players = s₂.players)
    (pid : String) : hasPlayerNode s₁ pid = hasPlayerNode s₂ pid := by
  unfold hasPlayerNode
  rw [h]

/-- Characterisation of `get_friends` listing a given id. -/
theorem mem_friendIds_iff {s : GraphState} {a b : String} :
    b ∈ friendIds s a ↔
      hasPlayerNode s a = true ∧ hasPlayerNode s b = true ∧
        ∃ e ∈ s.friendships, e.fromId = a ∧ e.toId = b := by
  unfold friendIds get_friends
  by_cases ha : hasPlayerNode s a
  · simp only [ha, if_pos, List.mem_map, List.mem_filterMap, true_and]
    constructor
    · rintro ⟨rec, ⟨e, he, hfe⟩, hid⟩
      by_cases hfrom : e.fromId == a
      · rw [if_pos hfrom] at hfe
        rcases Option.map_eq_some'.mp hfe with ⟨q, hq, hrec⟩
        have hqid : q.playerId = e.toId := lookupPlayer_playerId hq
        have hrecid : rec.playerId = q.playerId := by rw [← hrec]
        have hto : e.toId = b := by rw [← hqid, ← hrecid, hid]
        refine ⟨?_, e, he, by simpa using hfrom, hto⟩
        rw [← lookupPlayer_isSome_iff]
        rw [hto] at hq
        simp [hq]
      · rw [if_neg hfrom] at hfe
        exact absurd hfe (by simp)
    · rintro ⟨hb, e, he, hfrom, hto⟩
      have hsome : (lookupPlayer s b).isSome = true := lookupPlayer_isSome_iff.mpr hb
      rcases Option.isSome_iff_exists.mp hsome with ⟨q, hq⟩
      refine ⟨⟨q.playerId, q.username, q.status, e.since, e.nickname⟩,
        ⟨e, he, ?_⟩, lookupPlayer_playerId hq⟩
      rw [if_pos (by simpa using hfrom), hto, hq]
      rfl
  · simp [ha]

/-- The `send_friend_request` when both players exist. -/
theorem send_friend_request_eq {s : GraphState} {a b : String} (m : String) (t : Nat)
    (ha : hasPlayerNode s a = true) (hb : hasPlayerNode s b = true) :
    send_friend_request s a b m t =
      { s with sentRequests := s.sentRequests ++ [⟨a, b, m, t⟩] } := by
  unfold send_friend_request
  rw [if_pos (by rw [ha, hb]; rfl)]

/-- The `block_player` when both players exist. -/
theorem block_player_eq {s : GraphState} {a b : String} (r : Option String) (t : Nat)
    (ha : hasPlayerNode s a = true) (hb : hasPlayerNode s b = true) :
    block_player s a b r t =
      { s with
        friendships := s.friendships.filter (fun e => !(blockRowMatch a b e)),
        blocks := s.blocks ++
          List.replicate (max 1 (s.friendships.filter (blockRowMatch a b)).length)
            ⟨a, b, t, r⟩ } := by
  unfold block_player
  rw [if_pos (by rw [ha, hb]; rfl)]

/-- The `follow_player` when both players exist. -/
theorem follow_player_eq {s : GraphState} {a b : String} (t : Nat)
    (ha : hasPlayerNode s a = true) (hb : hasPlayerNode s b = true) :
    follow_player s a b t = { s with follows := s.follows ++ [⟨a, b, t⟩] } := by
  unfold follow_player
  rw [if_pos (by rw [ha, hb]; rfl)]

/-- The `join_party` when player and party exist. -/
theorem join_party_eq {s : GraphState} {pa p : String} (t : Nat)
    (hp : hasPlayerNode s p = true) (hpa : hasPartyNode s pa = true) :
    join_party s pa p t =
      { s with
        invites := s.invites.filter (fun i => !(inviteRowMatch p pa i)),
        inParty := s.inParty ++
          List.replicate (max 1 (s.invites.filter (inviteRowMatch p pa)).length)
            ⟨p, pa, t, "member"⟩ } := by
  unfold join_party
  rw [if_pos (by rw [hp, hpa]; rfl)]

/-- The `join_clan` when clan and player exist. -/
theorem join_clan_eq {s : GraphState} {c p : String} (t : Nat)
    (hc : hasClanNode s c = true) (hp : hasPlayerNode s p = true) :
    join_clan s c p t =
      { s with belongsTo := s.belongsTo ++
          [⟨p, c, t, "member", clanMemberCount s c + 1⟩] } := by
  unfold join_clan
  rw [if_pos hc, if_pos hp]

/-- The `send_message` when conversation and sender exist. -/
theorem send_message_eq {s : GraphState} {cid snd : String} (mid content : String)
    (t : Nat) (hc : hasConvNode s cid = true) (hp : hasPlayerNode s snd = true) :
    send_message s cid snd mid content t =
      { s with
        messages := s.messages ++ [⟨mid, content, t, false, none⟩],
        sentEdges := s.sentEdges ++ [⟨snd, mid⟩],
        containsEdges := s.containsEdges ++ [⟨cid, mid⟩],
        conversations := s.conversations.map (fun c =>
          if c.conversationId == cid then { c with lastMessageAt := some t }
          else c) } := by
  unfold send_message
  rw [if_pos (by rw [hc, hp]; rfl)]

/-! ## Claim C3 -/

/-- C3: after `block_player(A,B)`, `get_friends(A)` does not list B and
`get_friends(B)` does not list A, in every prior state — including states
where `FRIENDS_WITH` edges existed in both directions (the undirected
`OPTIONAL MATCH ... DELETE f` removes every such edge). -/
theorem c3_block_removes_friendship (s : GraphState) (a b : String)
    (r : Option String) (t : Nat) :
    b ∉ friendIds (block_player s a b r t) a ∧
    a ∉ friendIds (block_player s a b r t) b := by
  by_cases hab : hasPlayerNode s a = true ∧ hasPlayerNode s b = true
  · obtain ⟨ha, hb⟩ := hab
    rw [block_player_eq r t ha hb]
    constructor
    · intro hmem
      rcases mem_friendIds_iff.mp hmem with ⟨_, _, e, he, hfrom, hto⟩
      have he2 := List.mem_filter.mp he
      have hrow : blockRowMatch a b e = true := by
        unfold blockRowMatch
        rw [hfrom, hto]
        simp
      simp [hrow] at he2
    · intro hmem
      rcases mem_friendIds_iff.mp hmem with ⟨_, _, e, he, hfrom, hto⟩
      have he2 := List.mem_filter.mp he
      have hrow : blockRowMatch a b e = true := by
        unfold blockRowMatch
        rw [hfrom, hto]
        simp
      simp [hrow] at he2
  · have hs : block_player s a b r t = s := by
      unfold block_player
      rw [if_neg]
      simp only [Bool.and_eq_true]
      exact hab
    rw [hs]
    constructor
    · intro hmem
      rcases mem_friendIds_iff.mp hmem with ⟨h1, h2, _⟩
      exact hab ⟨h1, h2⟩
    · intro hmem
      rcases mem_friendIds_iff.mp hmem with ⟨h2, h1, _⟩
      exact hab ⟨h1, h2⟩

/-- C3 witness state: A and B are friends in both directions. -/
def c3State : GraphState :=
  { graph0 with
      players := [pAlice, pBob],
      friendships := [⟨"A", "B", 0, none⟩, ⟨"B", "A", 0, none⟩] }

/-- C3 applied to a concrete state where A and B were friends both ways. -/
theorem c3_block_removes_friendship_witness :
    "B" ∉ friendIds (block_player c3State "A" "B" none 1) "A" ∧
    "A" ∉ friendIds (block_player c3State "A" "B" none 1) "B" :=
  c3_block_removes_friendship c3State "A" "B" none 1

/-! ## Claim C4 -/

/-- C4 state: a single player A. -/
def c4State : GraphState := { graph0 with players := [pAlice] }

/-- C4 counterexample: `send_friend_request("A","A")` — a self-request —
does not fail and does create a `SENT_REQUEST` edge, contradicting the
claim that it fails with `InvalidState` and creates no edge. -/
theorem c4_counterexample :
    requestCount (send_friend_request c4State "A" "A" "" 1) "A" "A" = 1 := by
  decide

/-- C4 amended: `send_friend_request` performs no validation at all.
Whenever both endpoint players exist it creates one more `SENT_REQUEST`
edge, even when `from = to`, when a request already exists in either
direction, or when a `BLOCKED` edge exists in either direction. -/
theorem c4_send_request_unvalidated (s : GraphState) (a b m : String) (t : Nat)
    (ha : hasPlayerNode s a = true) (hb : hasPlayerNode s b = true) :
    requestCount (send_friend_request s a b m t) a b = requestCount s a b + 1 := by
  rw [send_friend_request_eq m t ha hb]
  unfold requestCount
  simp [List.filter_append]

/-- C4 amended theorem at a concrete input (a self-request on top of an
existing block). -/
theorem c4_send_request_unvalidated_witness :
    requestCount (send_friend_request c4State "A" "A" "x" 1) "A" "A" =
      requestCount c4State "A" "A" + 1 :=
  c4_send_request_unvalidated c4State "A" "A" "x" 1 (by decide) (by decide)

/-- The `block_player` never alters the `Player` node list. -/
theorem block_player_players (s : GraphState) (a b : String) (r : Option String)
    (t : Nat) : (block_player s a b r t).players = s.players := by
  unfold block_player
  split <;> rfl

/-! ## Claim C2 -/

/-- C2 state: two unrelated players. -/
def c2State : GraphState := { graph0 with players := [pAlice, pBob] }

/-- C2 counterexample: the second `block_player("A","B")` call appends a
second `BLOCKED` edge, so `get_blocked_players("A")` lists B twice — the
observable block state is not the state after the first call. -/
theorem c2_counterexample :
    (get_blocked_players
        (block_player (block_player c2State "A" "B" none 1) "A" "B" none 2) "A").length = 2 ∧
    (get_blocked_players (block_player c2State "A" "B" none 1) "A").length = 1 := by
  decide

/-- C2 amended: a second `block_player(A,B)` call succeeds without error,
but it is not idempotent: it appends exactly one duplicate `BLOCKED` edge,
and `get_blocked_players(A)` grows by one entry for B. -/
theorem c2_block_twice_duplicates (s : GraphState) (a b : String)
    (r1 r2 : Option String) (t1 t2 : Nat)
    (ha : hasPlayerNode s a = true) (hb : hasPlayerNode s b = true) :
    1 ≤ blockCount (block_player s a b r1 t1) a b ∧
    blockCount (block_player (block_player s a b r1 t1) a b r2 t2) a b =
      blockCount (block_player s a b r1 t1) a b + 1 ∧
    (get_blocked_players
        (block_player (block_player s a b r1 t1) a b r2 t2) a).length =
      (get_blocked_players (block_player s a b r1 t1) a).length + 1 := by
  have ha1 : hasPlayerNode (block_player s a b r1 t1) a = true :=
    (hasPlayerNode_congr (block_player_players s a b r1 t1) a).trans ha
  have hb1 : hasPlayerNode (block_player s a b r1 t1) b = true :=
    (hasPlayerNode_congr (block_player_players s a b r1 t1) b).trans hb
  rw [block_player_eq r2 t2 ha1 hb1]
  rw [block_player_eq r1 t1 ha hb]
  have hfs2 : ((s.friendships.filter (fun e => !(blockRowMatch a b e))).filter
      (blockRowMatch a b)) = [] := by
    rw [List.filter_eq_nil_iff]
    intro e he
    have := (List.mem_filter.mp he).2
    simp at this
    simp [this]
  refine ⟨?_, ?_, ?_⟩
  · unfold blockCount
    simp only [List.filter_append, List.filter_replicate, List.length_append]
    simp
    exact le_trans le_sup_left (Nat.le_add_left _ _)
  · unfold blockCount
    simp only [hfs2, List.filter_append, List.filter_replicate, List.length_append]
    simp
  · have hsome : (lookupPlayer s b).isSome = true := lookupPlayer_isSome_iff.mpr hb
    rcases Option.isSome_iff_exists.mp hsome with ⟨q, hq⟩
    have haA : s.players.any (fun p => p.playerId == a) = true := ha
    have hqb : s.players.find? (fun p => p.playerId == b) = some q := hq
    simp only [get_blocked_players, lookupPlayer, hasPlayerNode]
    simp [haA, List.filterMap_append, hqb]
    omega

/-- C2 amended theorem at the concrete double-block input. -/
theorem c2_block_twice_duplicates_witness :
    1 ≤ blockCount (block_player c2State "A" "B" none 1) "A" "B" ∧
    blockCount (block_player (block_player c2State "A" "B" none 1) "A" "B" none 2) "A" "B" =
      blockCount (block_player c2State "A" "B" none 1) "A" "B" + 1 ∧
    (get_blocked_players
        (block_player (block_player c2State "A" "B" none 1) "A" "B" none 2) "A").length =
      (get_blocked_players (block_player c2State "A" "B" none 1) "A").length + 1 :=
  c2_block_twice_duplicates c2State "A" "B" none none 1 2 (by decide) (by decide)

/-! ## Claim C1 -/

/-- C1 counterexample state: a `SENT_REQUEST` from B to A already exists. -/
def c1State : GraphState :=
  { graph0 with
      players := [pAlice, pBob],
      sentRequests := [⟨"B", "A", "", 0⟩] }

/-- C1 counterexample: with a pre-existing request from B to A,
`send_friend_request(A,B)` then `accept_friend_request(A,B)` leaves that
`SENT_REQUEST` edge in place, so a `SENT_REQUEST` edge between A and B
remains, against the claim. -/
theorem c1_counterexample :
    requestCount
      (accept_friend_request (send_friend_request c1State "A" "B" "" 1) "A" "B" 2)
      "B" "A" = 1 := by
  decide

/-- C1 amended: for distinct existing players A and B,
`send_friend_request(A,B)` then `accept_friend_request(A,B)` makes
`get_friends(A)` list B and `get_friends(B)` list A and removes every
`SENT_REQUEST` from A to B; a request from B to A is untouched, so no
request remains in either direction only when none existed from B to A
beforehand. -/
theorem c1_accept_after_send (s : GraphState) (a b m : String) (t1 t2 : Nat)
    (ha : hasPlayerNode s a = true) (hb : hasPlayerNode s b = true)
    (hne : a ≠ b) (h0 : requestCount s b a = 0) :
    b ∈ friendIds (accept_friend_request (send_friend_request s a b m t1) a b t2) a ∧
    a ∈ friendIds (accept_friend_request (send_friend_request s a b m t1) a b t2) b ∧
    requestCount (accept_friend_request (send_friend_request s a b m t1) a b t2) a b = 0 ∧
    requestCount (accept_friend_request (send_friend_request s a b m t1) a b t2) b a = 0 := by
  rw [send_friend_request_eq m t1 ha hb]
  set s1 : GraphState :=
    { s with sentRequests := s.sentRequests ++ [⟨a, b, m, t1⟩] } with hs1
  have ha1 : hasPlayerNode s1 a = true := ha
  have hb1 : hasPlayerNode s1 b = true := hb
  have hreq : (⟨a, b, m, t1⟩ : SentRequestEdge) ∈
      s1.sentRequests.filter (acceptRowMatch s1 a b) := by
    refine List.mem_filter.mpr ⟨?_, ?_⟩
    · exact List.mem_append_right _ (List.mem_singleton.mpr rfl)
    · simp [acceptRowMatch, ha1, hb1]
  refine ⟨?_, ?_, ?_, ?_⟩
  · refine mem_friendIds_iff.mpr ⟨ha1, hb1, ⟨a, b, t2, none⟩, ?_, rfl, rfl⟩
    refine List.mem_append_right _ (List.mem_flatMap.mpr ⟨_, hreq, ?_⟩)
    simp
  · refine mem_friendIds_iff.mpr ⟨hb1, ha1, ⟨b, a, t2, none⟩, ?_, rfl, rfl⟩
    refine List.mem_append_right _ (List.mem_flatMap.mpr ⟨_, hreq, ?_⟩)
    simp
  · rw [show requestCount (accept_friend_request s1 a b t2) a b =
        ((s1.sentRequests.filter (fun e => !(acceptRowMatch s1 a b e))).filter
          (fun e => e.fromId == a && e.toId == b)).length from rfl]
    rw [List.length_eq_zero, List.filter_eq_nil_iff]
    intro e he hpr
    have harm : acceptRowMatch s1 a b e = false := by
      have h2 := (List.mem_filter.mp he).2
      simpa using h2
    have : acceptRowMatch s1 a b e = true := by
      simp only [acceptRowMatch, ha1, hb1]
      simp at hpr ⊢
      exact hpr
    rw [this] at harm
    exact Bool.noConfusion harm
  · rw [show requestCount (accept_friend_request s1 a b t2) b a =
        ((s1.sentRequests.filter (fun e => !(acceptRowMatch s1 a b e))).filter
          (fun e => e.fromId == b && e.toId == a)).length from rfl]
    rw [List.length_eq_zero, List.filter_eq_nil_iff]
    intro e he hpr
    have hmem : e ∈ s1.sentRequests := (List.mem_filter.mp he).1
    rcases List.mem_append.mp hmem with hin | hin
    · have hnil : s.sentRequests.filter
          (fun e => e.fromId == b && e.toId == a) = [] :=
        List.length_eq_zero.mp h0
      exact absurd hpr (List.filter_eq_nil_iff.mp hnil e hin)
    · have he2 : e = ⟨a, b, m, t1⟩ := List.mem_singleton.mp hin
      subst he2
      simp at hpr
      exact hne hpr.1

/-- C1 witness state: two unrelated players. -/
def c1WitnessState : GraphState := { graph0 with players := [pAlice, pBob] }

/-- C1 amended theorem at a concrete input with no prior request B to A. -/
theorem c1_accept_after_send_witness :
    "B" ∈ friendIds
        (accept_friend_request (send_friend_request c1WitnessState "A" "B" "hi" 1) "A" "B" 2) "A" ∧
    "A" ∈ friendIds
        (accept_friend_request (send_friend_request c1WitnessState "A" "B" "hi" 1) "A" "B" 2) "B" ∧
    requestCount
        (accept_friend_request (send_friend_request c1WitnessState "A" "B" "hi" 1) "A" "B" 2)
        "A" "B" = 0 ∧
    requestCount
        (accept_friend_request (send_friend_request c1WitnessState "A" "B" "hi" 1) "A" "B" 2)
        "B" "A" = 0 :=
  c1_accept_after_send c1WitnessState "A" "B" "hi" 1 2 (by decide) (by decide)
    (by decide) (by decide)

/-! ## Claim C5 -/

/-- Every matched suggestion row passed the `WHERE` clause. -/
theorem suggestionRows_mem {s : GraphState} {pid c : String}
    (h : c ∈ suggestionRows s pid) :
    c ≠ pid ∧ friendEdgeB s pid c = false ∧ blockEdgeB s pid c = false := by
  unfold suggestionRows at h
  by_cases hp : hasPlayerNode s pid
  · rw [if_pos hp] at h
    rcases List.mem_flatMap.mp h with ⟨e1, _, hmap⟩
    rcases List.mem_map.mp hmap with ⟨e2, he2, hc⟩
    have hpred := (List.mem_filter.mp he2).2
    simp only [Bool.and_eq_true, Bool.not_eq_true'] at hpred
    subst hc
    obtain ⟨⟨⟨⟨hA, hB⟩, hC⟩, hD⟩, hE⟩ := hpred
    exact ⟨by simpa using hE, hC, hD⟩
  · rw [if_neg hp] at h
    exact absurd h (List.not_mem_nil c)

/-- C5 amended: `get_friend_suggestions(A, N)` never includes A itself,
never includes a player with a `FRIENDS_WITH` edge from A, and never
includes a player that A blocks; the result is sorted non-increasingly by
the reported `mutual_friends` count.  (Players who block A are NOT
excluded — the `WHERE` clause only checks `(p)-[:BLOCKED]->(suggestion)`.) -/
theorem c5_suggestions_sound (s : GraphState) (pid : String) (limit : Nat) :
    (∀ r ∈ get_friend_suggestions s pid limit,
      r.playerId ≠ pid ∧ friendEdgeB s pid r.playerId = false ∧
        blockEdgeB s pid r.playerId = false) ∧
    List.Pairwise sugLE (get_friend_suggestions s pid limit) := by
  constructor
  · intro r hr
    have hr1 : r ∈ List.insertionSort sugLE
        ((suggestionRows s pid).dedup.filterMap (fun c =>
          (lookupPlayer s c).map (fun q =>
            ⟨q.playerId, q.username, q.status, (suggestionRows s pid).count c⟩))) :=
      List.take_subset _ _ hr
    have hr2 := (List.mem_insertionSort sugLE).mp hr1
    rcases List.mem_filterMap.mp hr2 with ⟨c, hc, hmap⟩
    rcases Option.map_eq_some'.mp hmap with ⟨q, hq, hrec⟩
    have hid : r.playerId = c := by
      rw [← hrec]
      exact lookupPlayer_playerId hq
    rw [hid]
    exact suggestionRows_mem (List.mem_dedup.mp hc)
  · exact (List.sorted_insertionSort sugLE _).sublist (List.take_sublist _ _)

/-- C5 counterexample state: A-F and F-B are friends (both directions) and
B blocks A. -/
def c5State : GraphState :=
  { graph0 with
      players := [pAlice, pFred, pBob],
      friendships := [⟨"A", "F", 0, none⟩, ⟨"F", "A", 0, none⟩,
        ⟨"F", "B", 0, none⟩, ⟨"B", "F", 0, none⟩],
      blocks := [⟨"B", "A", 0, none⟩] }

/-- C5 counterexample: B blocks A, yet B is returned as a suggestion for A
— the claim says players blocking A are excluded. -/
theorem c5_counterexample :
    (get_friend_suggestions c5State "A" 10).map (fun r => r.playerId) = ["B"] ∧
    blockEdgeB c5State "B" "A" = true := by
  decide

/-- C5 amended theorem at a concrete input. -/
theorem c5_suggestions_sound_witness :
    (∀ r ∈ get_friend_suggestions c5State "A" 10,
      r.playerId ≠ "A" ∧ friendEdgeB c5State "A" r.playerId = false ∧
        blockEdgeB c5State "A" r.playerId = false) ∧
    List.Pairwise sugLE (get_friend_suggestions c5State "A" 10) :=
  c5_suggestions_sound c5State "A" 10

/-! ## Claim C6 -/

/-- C6 state: A leads party P1; a second party P2 exists. -/
def c6State : GraphState :=
  { graph0 with
      players := [pAlice],
      parties := [⟨"P1", "g", 4, false, 0⟩, ⟨"P2", "g", 4, false, 0⟩],
      inParty := [⟨"A", "P1", 0, "leader"⟩],
      clans := [⟨"C", "club", "TAG", none, 0⟩],
      belongsTo := [⟨"A", "C", 0, "member", 1⟩] }

/-- C6 counterexample: A already holds an `IN_PARTY` membership, yet
`join_party(P2, A)` succeeds and creates a second membership edge — no
`Conflict` error, and the at-most-one-membership invariant is violated. -/
theorem c6_counterexample :
    inPartyCountOf (join_party c6State "P2" "A" 1) "A" = 2 := by
  decide

/-- C6 amended: `join_party` and `join_clan` perform no single-membership
check and never fail: whenever the player and the target exist, each call
unconditionally appends membership edge(s) (`join_party`: one per matched
row, `join_clan`: exactly one), even while the player already belongs to
another party or clan. -/
theorem c6_join_unchecked (s : GraphState) (pa c p : String) (t1 t2 : Nat)
    (hp : hasPlayerNode s p = true) (hpa : hasPartyNode s pa = true)
    (hc : hasClanNode s c = true) :
    inPartyCountOf (join_party s pa p t1) p =
      inPartyCountOf s p +
        max 1 (s.invites.filter (inviteRowMatch p pa)).length ∧
    belongsCountOf (join_clan s c p t2) p = belongsCountOf s p + 1 := by
  constructor
  · rw [join_party_eq t1 hp hpa]
    unfold inPartyCountOf
    simp [List.filter_append, List.filter_replicate]
  · rw [join_clan_eq t2 hc hp]
    unfold belongsCountOf
    simp [List.filter_append]

/-- C6 amended theorem at the concrete double-membership input. -/
theorem c6_join_unchecked_witness :
    inPartyCountOf (join_party c6State "P2" "A" 1) "A" =
      inPartyCountOf c6State "A" +
        max 1 (c6State.invites.filter (inviteRowMatch "A" "P2")).length ∧
    belongsCountOf (join_clan c6State "C" "A" 2) "A" =
      belongsCountOf c6State "A" + 1 :=
  c6_join_unchecked c6State "P2" "C" "A" 1 2 (by decide) (by decide) (by decide)

/-! ## Claim C7 -/

/-- C7 state: clan C with owner O at rank 1; players A and B exist. -/
def c7State : GraphState :=
  { graph0 with
      players := [⟨"O", "om", "online"⟩, pAlice, pBob],
      clans := [⟨"C", "club", "TAG", none, 0⟩],
      belongsTo := [⟨"O", "C", 0, "owner", 1⟩] }

/-- C7 counterexample: A joins clan C and is assigned rank 2; after A
leaves, B joins and is assigned rank 2 again — a rank value is reused
across a joinClan/leaveClan interleaving. -/
theorem c7_counterexample :
    (⟨"A", "C", 1, "member", 2⟩ : BelongsToEdge) ∈
      (join_clan c7State "C" "A" 1).belongsTo ∧
    (⟨"B", "C", 2, "member", 2⟩ : BelongsToEdge) ∈
      (join_clan (leave_clan (join_clan c7State "C" "A" 1) "C" "A") "C" "B" 2).belongsTo := by
  decide

/-- C7 amended: `join_clan` assigns rank = current member count + 1, so in
the absence of `leave_clan` ranks within a clan are strictly increasing in
join order and never reused (the rank bound `rank ≤ member count` is
preserved by each join); after a leave the counter shrinks and the freed
rank is assigned again. -/
theorem c7_rank_fresh_without_leaves (s : GraphState) (c p : String) (t : Nat)
    (hc : hasClanNode s c = true) (hp : hasPlayerNode s p = true)
    (hb : ∀ e ∈ s.belongsTo, e.clanId = c → e.rank ≤ clanMemberCount s c) :
    (∀ e ∈ s.belongsTo, e.clanId = c → e.rank < clanMemberCount s c + 1) ∧
    (⟨p, c, t, "member", clanMemberCount s c + 1⟩ : BelongsToEdge) ∈
      (join_clan s c p t).belongsTo ∧
    (∀ e ∈ (join_clan s c p t).belongsTo, e.clanId = c →
      e.rank ≤ clanMemberCount (join_clan s c p t) c) := by
  have hj := join_clan_eq t hc hp
  refine ⟨fun e he hec => Nat.lt_succ_of_le (hb e he hec), ?_, ?_⟩
  · rw [hj]
    exact List.mem_append_right _ (List.mem_singleton.mpr rfl)
  · rw [hj]
    have hpA : (s.players.any fun q => q.playerId == p) = true := hp
    have hcount : clanMemberCount
        { s with belongsTo :=
            s.belongsTo ++ [⟨p, c, t, "member", clanMemberCount s c + 1⟩] } c =
        clanMemberCount s c + 1 := by
      unfold clanMemberCount hasPlayerNode
      simp [List.filter_append, hpA]
    rw [hcount]
    intro e he hec
    rcases List.mem_append.mp he with hin | hin
    · exact Nat.le_succ_of_le (hb e hin hec)
    · rw [List.mem_singleton.mp hin]

/-- C7 amended theorem at a concrete input (owner at rank 1, A joins). -/
theorem c7_rank_fresh_without_leaves_witness :
    (∀ e ∈ c7State.belongsTo, e.clanId = "C" →
      e.rank < clanMemberCount c7State "C" + 1) ∧
    (⟨"A", "C", 1, "member", clanMemberCount c7State "C" + 1⟩ : BelongsToEdge) ∈
      (join_clan c7State "C" "A" 1).belongsTo ∧
    (∀ e ∈ (join_clan c7State "C" "A" 1).belongsTo, e.clanId = "C" →
      e.rank ≤ clanMemberCount (join_clan c7State "C" "A" 1) "C") :=
  c7_rank_fresh_without_leaves c7State "C" "A" 1 (by decide) (by decide) (by decide)

/-! ## Claim C8 -/

/-- C8 state: a conversation with NO members and a player S. -/
def c8State : GraphState :=
  { graph0 with
      players := [⟨"S", "sam", "online"⟩],
      conversations := [⟨"C", "direct", none, 0, none⟩] }

/-- C8 counterexample: S holds no `MEMBER_OF` edge to conversation C, yet
`send_message(C, S, ...)` creates the Message anyway — no `Forbidden`
error and no membership check. -/
theorem c8_counterexample :
    c8State.memberships = [] ∧
    (send_message c8State "C" "S" "M1" "hi" 5).messages =
      [⟨"M1", "hi", 5, false, none⟩] := by
  decide

/-- C8 amended: `send_message` checks only that the conversation and the
sender nodes exist — membership is never consulted.  In one operation it
creates the Message with its `SENT` and `CONTAINS` edges and updates the
conversation's `last_message_at`, whether or not the sender is a member. -/
theorem c8_send_message_unchecked (s : GraphState)
    (cid snd mid content : String) (t : Nat)
    (hc : hasConvNode s cid = true) (hp : hasPlayerNode s snd = true) :
    (⟨mid, content, t, false, none⟩ : Message) ∈
      (send_message s cid snd mid content t).messages ∧
    (⟨snd, mid⟩ : SentEdge) ∈ (send_message s cid snd mid content t).sentEdges ∧
    (⟨cid, mid⟩ : ContainsEdge) ∈
      (send_message s cid snd mid content t).containsEdges ∧
    ∀ conv ∈ (send_message s cid snd mid content t).conversations,
      conv.conversationId = cid → conv.lastMessageAt = some t := by
  rw [send_message_eq mid content t hc hp]
  refine ⟨List.mem_append_right _ (List.mem_singleton.mpr rfl),
    List.mem_append_right _ (List.mem_singleton.mpr rfl),
    List.mem_append_right _ (List.mem_singleton.mpr rfl), ?_⟩
  intro conv hconv hid
  rcases List.mem_map.mp hconv with ⟨c0, _, heq⟩
  by_cases hck : c0.conversationId == cid
  · rw [← heq]
    simp [hck]
  · exfalso
    rw [← heq] at hid
    rw [if_neg (by simpa using hck)] at hid
    exact absurd hid (by simpa using hck)

/-- C8 amended theorem at the concrete non-member input. -/
theorem c8_send_message_unchecked_witness :
    (⟨"M1", "hi", 5, false, none⟩ : Message) ∈
      (send_message c8State "C" "S" "M1" "hi" 5).messages ∧
    (⟨"S", "M1"⟩ : SentEdge) ∈ (send_message c8State "C" "S" "M1" "hi" 5).sentEdges ∧
    (⟨"C", "M1"⟩ : ContainsEdge) ∈
      (send_message c8State "C" "S" "M1" "hi" 5).containsEdges ∧
    ∀ conv ∈ (send_message c8State "C" "S" "M1" "hi" 5).conversations,
      conv.conversationId = "C" → conv.lastMessageAt = some 5 :=
  c8_send_message_unchecked c8State "C" "S" "M1" "hi" 5 (by decide) (by decide)

/-! ## Claim C9 -/

/-- The `follow_player` never alters the `Player` node list. -/
theorem follow_player_players (s : GraphState) (a b : String) (t : Nat) :
    (follow_player s a b t).players = s.players := by
  unfold follow_player
  split <;> rfl

/-- Per-row accounting of `get_following` against the `FOLLOWS` edges. -/
theorem count_following_aux (s : GraphState) (a b : String)
    (hb : hasPlayerNode s b = true) :
    ∀ l : List FollowEdge,
      ((l.filterMap (fun e =>
          if e.followerId == a then
            (lookupPlayer s e.followingId).map (fun q =>
              (⟨q.playerId, q.username, q.status, e.since⟩ : FollowRec))
          else none)).map (fun r => r.playerId)).count b =
        (l.filter (fun e => e.followerId == a && e.followingId == b)).length := by
  intro l
  induction l with
  | nil => simp
  | cons e tl ih =>
    simp only [beq_iff_eq] at ih
    by_cases h1 : e.followerId == a
    · have h1e : e.followerId = a := by simpa using h1
      by_cases h2 : e.followingId == b
      · have hbe : e.followingId = b := by simpa using h2
        have hsome : (lookupPlayer s b).isSome = true :=
          lookupPlayer_isSome_iff.mpr hb
        rcases Option.isSome_iff_exists.mp hsome with ⟨q, hq⟩
        have hqid : q.playerId = b := lookupPlayer_playerId hq
        simp [List.filterMap_cons, h1, h1e, hbe, hq, List.count_cons, hqid,
          List.filter_cons, h2]
        exact ih
      · cases hq : lookupPlayer s e.followingId with
        | none =>
          simp [List.filterMap_cons, h1, h1e, hq, List.filter_cons, h2]
          exact ih
        | some q =>
          have hqid : q.playerId = e.followingId := lookupPlayer_playerId hq
          have hne : q.playerId ≠ b := by
            rw [hqid]
            simpa using h2
          simp [List.filterMap_cons, h1, h1e, hq, List.count_cons, hne,
            List.filter_cons, h2]
          exact ih
    · have h1e : ¬(e.followerId = a) := by simpa using h1
      simp [List.filterMap_cons, h1, h1e, List.filter_cons]
      exact ih

/-- The `get_following(A)` lists B once per `FOLLOWS` edge from A to B. -/
theorem count_get_following (s : GraphState) (a b : String)
    (ha : hasPlayerNode s a = true) (hb : hasPlayerNode s b = true) :
    ((get_following s a).map (fun r => r.playerId)).count b = followCount s a b := by
  unfold get_following
  rw [if_pos ha]
  exact count_following_aux s a b hb s.follows

/-- The `unfollow_player` deletes every matched `FOLLOWS` row. -/
theorem unfollow_player_clears (s : GraphState) (a b : String)
    (ha : hasPlayerNode s a = true) (hb : hasPlayerNode s b = true) :
    followCount (unfollow_player s a b) a b = 0 := by
  unfold unfollow_player followCount
  rw [List.length_eq_zero, List.filter_eq_nil_iff]
  intro e he hpr
  have hdel := (List.mem_filter.mp he).2
  simp only [Bool.not_eq_true'] at hdel
  rw [ha, hb] at hdel
  simp [hpr] at hdel

/-- C9: `follow_player` is not deduplicated — each call appends one more
`FOLLOWS` edge even when one already exists, so starting from no edge two
calls make `get_following(A)` list B twice; `unfollow_player` then removes
every `FOLLOWS` edge from A to B. -/
theorem c9_follow_not_deduplicated (s : GraphState) (a b : String) (t1 t2 : Nat)
    (ha : hasPlayerNode s a = true) (hb : hasPlayerNode s b = true) :
    followCount (follow_player s a b t1) a b = followCount s a b + 1 ∧
    followCount (follow_player (follow_player s a b t1) a b t2) a b =
      followCount s a b + 2 ∧
    (followCount s a b = 0 →
      ((get_following (follow_player (follow_player s a b t1) a b t2) a).map
        (fun r => r.playerId)).count b = 2) ∧
    followCount
      (unfollow_player (follow_player (follow_player s a b t1) a b t2) a b)
      a b = 0 := by
  have ha1 : hasPlayerNode (follow_player s a b t1) a = true :=
    (hasPlayerNode_congr (follow_player_players s a b t1) a).trans ha
  have hb1 : hasPlayerNode (follow_player s a b t1) b = true :=
    (hasPlayerNode_congr (follow_player_players s a b t1) b).trans hb
  rw [follow_player_eq t2 ha1 hb1, follow_player_eq t1 ha hb]
  refine ⟨?_, ?_, ?_, ?_⟩
  · unfold followCount
    simp [List.filter_append]
  · unfold followCount
    simp [List.filter_append]
  · intro h0
    rw [count_get_following]
    · unfold followCount at h0 ⊢
      simp [List.filter_append, h0]
    · exact ha
    · exact hb
  · exact unfollow_player_clears _ a b ha hb

/-- C9 state: two unrelated players. -/
def c9State : GraphState := { graph0 with players := [pAlice, pBob] }

/-- C9 at a concrete input: two follows, then an unfollow. -/
theorem c9_follow_not_deduplicated_witness :
    followCount (follow_player c9State "A" "B" 1) "A" "B" =
      followCount c9State "A" "B" + 1 ∧
    followCount (follow_player (follow_player c9State "A" "B" 1) "A" "B" 2) "A" "B" =
      followCount c9State "A" "B" + 2 ∧
    (followCount c9State "A" "B" = 0 →
      ((get_following (follow_player (follow_player c9State "A" "B" 1) "A" "B" 2) "A").map
        (fun r => r.playerId)).count "B" = 2) ∧
    followCount
      (unfollow_player (follow_player (follow_player c9State "A" "B" 1) "A" "B" 2) "A" "B")
      "A" "B" = 0 :=
  c9_follow_not_deduplicated c9State "A" "B" 1 2 (by decide) (by decide)

/-! ## Claim C10 -/

/-- C10: for a message with a sender (`SENT`) and a parent conversation
(`CONTAINS`), `edit_message` touches only the matched Message's `content`,
`edited` (set to true) and `edited_at` properties.  Every other node and
edge list is unchanged, message ids and original timestamps are unchanged,
messages with a different id are untouched, and the matched message exists
in the result. -/
theorem c10_edit_message_frame (s : GraphState) (mid nc : String) (t : Nat)
    (hm : hasMessageNode s mid = true)
    (hs : s.sentEdges.any
      (fun e => e.messageId == mid && hasPlayerNode s e.senderId) = true)
    (hc : s.containsEdges.any
      (fun e => e.messageId == mid && hasConvNode s e.conversationId) = true) :
    (edit_message s mid nc t).players = s.players ∧
    (edit_message s mid nc t).sentRequests = s.sentRequests ∧
    (edit_message s mid nc t).friendships = s.friendships ∧
    (edit_message s mid nc t).blocks = s.blocks ∧
    (edit_message s mid nc t).follows = s.follows ∧
    (edit_message s mid nc t).conversations = s.conversations ∧
    (edit_message s mid nc t).memberships = s.memberships ∧
    (edit_message s mid nc t).sentEdges = s.sentEdges ∧
    (edit_message s mid nc t).containsEdges = s.containsEdges ∧
    (edit_message s mid nc t).parties = s.parties ∧
    (edit_message s mid nc t).inParty = s.inParty ∧
    (edit_message s mid nc t).invites = s.invites ∧
    (edit_message s mid nc t).clans = s.clans ∧
    (edit_message s mid nc t).belongsTo = s.belongsTo ∧
    (edit_message s mid nc t).messages.map (fun m => m.messageId) =
      s.messages.map (fun m => m.messageId) ∧
    (edit_message s mid nc t).messages.map (fun m => m.timestamp) =
      s.messages.map (fun m => m.timestamp) ∧
    (∀ m ∈ s.messages, m.messageId ≠ mid → m ∈ (edit_message s mid nc t).messages) ∧
    (∀ m ∈ (edit_message s mid nc t).messages, m.messageId = mid →
      m.content = nc ∧ m.edited = true ∧ m.editedAt = some t) ∧
    (∃ m ∈ (edit_message s mid nc t).messages, m.messageId = mid) := by
  have hcond : (hasMessageNode s mid &&
      s.sentEdges.any (fun e => e.messageId == mid && hasPlayerNode s e.senderId) &&
      s.containsEdges.any
        (fun e => e.messageId == mid && hasConvNode s e.conversationId)) = true := by
    rw [hm, hs, hc]
    rfl
  have hE : edit_message s mid nc t =
      { s with messages := s.messages.map (fun m =>
          if m.messageId == mid then
            { m with content := nc, edited := true, editedAt := some t }
          else m) } := by
    unfold edit_message
    rw [if_pos hcond]
  rw [hE]
  refine ⟨rfl, rfl, rfl, rfl, rfl, rfl, rfl, rfl, rfl, rfl, rfl, rfl, rfl, rfl,
    ?_, ?_, ?_, ?_, ?_⟩
  · rw [List.map_map]
    apply List.map_congr_left
    intro m _
    simp only [Function.comp_apply]
    split <;> rfl
  · rw [List.map_map]
    apply List.map_congr_left
    intro m _
    simp only [Function.comp_apply]
    split <;> rfl
  · intro m hmem hne
    refine List.mem_map.mpr ⟨m, hmem, ?_⟩
    have hbeq : (m.messageId == mid) = false := by simpa using hne
    simp [hbeq]
  · intro m hmem hid
    rcases List.mem_map.mp hmem with ⟨m0, _, hupd⟩
    by_cases h : m0.messageId == mid
    · rw [← hupd]
      simp [h]
    · exfalso
      rw [← hupd] at hid
      rw [if_neg (by simpa using h)] at hid
      exact absurd hid (by simpa using h)
  · unfold hasMessageNode at hm
    rcases List.any_eq_true.mp hm with ⟨m0, hm0, hbeq⟩
    refine ⟨{ m0 with content := nc, edited := true, editedAt := some t },
      List.mem_map.mpr ⟨m0, hm0, by simp [hbeq]⟩, by simpa using hbeq⟩

/-- C10 state: one message with sender S and parent conversation C. -/
def c10State : GraphState :=
  { graph0 with
      players := [⟨"S", "sam", "online"⟩],
      conversations := [⟨"C", "direct", none, 0, some 3⟩],
      memberships := [⟨"S", "C", 0, "member", false⟩],
      messages := [⟨"M1", "hello", 3, false, none⟩],
      sentEdges := [⟨"S", "M1"⟩],
      containsEdges := [⟨"C", "M1"⟩] }

/-- C10 at the concrete one-message state. -/
theorem c10_edit_message_frame_witness :
    (edit_message c10State "M1" "bye" 9).players = c10State.players ∧
    (edit_message c10State "M1" "bye" 9).sentRequests = c10State.sentRequests ∧
    (edit_message c10State "M1" "bye" 9).friendships = c10State.friendships ∧
    (edit_message c10State "M1" "bye" 9).blocks = c10State.blocks ∧
    (edit_message c10State "M1" "bye" 9).follows = c10State.follows ∧
    (edit_message c10State "M1" "bye" 9).conversations = c10State.conversations ∧
    (edit_message c10State "M1" "bye" 9).memberships = c10State.memberships ∧
    (edit_message c10State "M1" "bye" 9).sentEdges = c10State.sentEdges ∧
    (edit_message c10State "M1" "bye" 9).containsEdges = c10State.containsEdges ∧
    (edit_message c10State "M1" "bye" 9).parties = c10State.parties ∧
    (edit_message c10State "M1" "bye" 9).inParty = c10State.inParty ∧
    (edit_message c10State "M1" "bye" 9).invites = c10State.invites ∧
    (edit_message c10State "M1" "bye" 9).clans = c10State.clans ∧
    (edit_message c10State "M1" "bye" 9).belongsTo = c10State.belongsTo ∧
    (edit_message c10State "M1" "bye" 9).messages.map (fun m => m.messageId) =
      c10State.messages.map (fun m => m.messageId) ∧
    (edit_message c10State "M1" "bye" 9).messages.map (fun m => m.timestamp) =
      c10State.messages.map (fun m => m.timestamp) ∧
    (∀ m ∈ c10State.messages, m.messageId ≠ "M1" →
      m ∈ (edit_message c10State "M1" "bye" 9).messages) ∧
    (∀ m ∈ (edit_message c10State "M1" "bye" 9).messages, m.messageId = "M1" →
      m.content = "bye" ∧ m.edited = true ∧ m.editedAt = some 9) ∧
    (∃ m ∈ (edit_message c10State "M1" "bye" 9).messages, m.messageId = "M1") :=
  c10_edit_message_frame c10State "M1" "bye" 9 (by decide) (by decide) (by decide)
